import Mathlib

/-!
# Verification of the letce2 Docker plugin lifecycle controller

Shallow embedding of `src/letce2/plugins/docker/plugin.py`.

The plugin's four phases (`_do_build`, `_do_start`, `_do_stop`, `_do_clean`)
are straight-line Python methods that check a lock file, invoke external
commands via `subprocess.run` / `subprocess.Popen` / `subprocess.call`, and
mutate the filesystem (lock file, `persist/<node>` workspaces).  We model:

* the filesystem state touched by the plugin (`FS`);
* the outcomes of the external commands as an oracle (`ExtEnv`), with the
  three observable behaviours of a `subprocess.run` call: it returns with
  exit status 0, returns with a non-zero exit status, or raises a Python
  exception (`RunResult`).  `subprocess.run(..., check=True)` turns a
  non-zero exit status into a `CalledProcessError` exception; without
  `check=True` a non-zero status is returned silently and only a spawn
  failure raises;
* each phase as a function producing an `Outcome` (normal return vs.
  `sys.exit`/uncaught exception), the ordered trace of side-effecting
  invocations (`Event`), and the final filesystem state;
* `time.gmtime`/`time.strftime` over the exact format string the plugin
  uses, so the Synchronized Start Instant string is computed, not stubbed.
-/

namespace Letce2Docker

/-- Broken-down UTC time, the fields of a C `struct tm` that the plugin's
format string `"%a, %d %b %Y %H:%M:%S +0000"` consumes.  `mon` is 0-based
(January = 0) as in C; `year` is the full year; `wday` is 0-based with
Sunday = 0, as in C. -/
structure Tm where
  sec : Nat
  min : Nat
  hour : Nat
  mday : Nat
  mon : Nat
  year : Nat
  wday : Nat
  deriving Repr, DecidableEq

/-- Embedding of `time.gmtime` on a non-negative Unix epoch second count:
convert seconds since 1970-01-01T00:00:00Z to broken-down UTC time.
The date part uses the standard civil-from-days conversion. -/
def gmtime (t : Nat) : Tm :=
  let days := t / 86400
  let sod := t % 86400
  let z := days + 719468
  let era := z / 146097
  let doe := z % 146097
  let yoe := (doe - doe / 1460 + doe / 36524 - doe / 146096) / 365
  let doy := doe - (365 * yoe + yoe / 4 - yoe / 100)
  let mp := (5 * doy + 2) / 153
  let d := doy - (153 * mp + 2) / 5 + 1
  let m := if mp < 10 then mp + 3 else mp - 9
  let y := yoe + era * 400 + (if m ≤ 2 then 1 else 0)
  { sec := sod % 60
    min := sod / 60 % 60
    hour := sod / 3600
    mday := d
    mon := m - 1
    year := y
    wday := (days + 4) % 7 }

/-- Two-digit zero padding, as `%d`, `%H`, `%M`, `%S` render in `strftime`. -/
def pad2 (n : Nat) : List Char :=
  if n < 10 then '0' :: Nat.toDigits 10 n else Nat.toDigits 10 n

/-- `%a` weekday abbreviations of the C locale, indexed from Sunday. -/
def wdayAbbrev (w : Nat) : List Char :=
  (["Sun", "Mon", "Tue", "Wed", "Thu", "Fri", "Sat"].getD w "").data

/-- `%b` month abbreviations of the C locale, indexed from January = 0. -/
def monAbbrev (m : Nat) : List Char :=
  (["Jan", "Feb", "Mar", "Apr", "May", "Jun",
    "Jul", "Aug", "Sep", "Oct", "Nov", "Dec"].getD m "").data

/-- One conversion specifier of `time.strftime`, restricted to the
specifiers appearing in the plugin's format string. -/
def fmtSpec (c : Char) (tm : Tm) : List Char :=
  if c = 'a' then wdayAbbrev tm.wday
  else if c = 'd' then pad2 tm.mday
  else if c = 'b' then monAbbrev tm.mon
  else if c = 'Y' then Nat.toDigits 10 tm.year
  else if c = 'H' then pad2 tm.hour
  else if c = 'M' then pad2 tm.min
  else if c = 'S' then pad2 tm.sec
  else [c]

/-- Embedding of `time.strftime`: interpret the format character list,
expanding `%x` specifiers and copying other characters verbatim. -/
def strftimeAux : List Char → Tm → List Char
  | [], _ => []
  | '%' :: c :: rest, tm => fmtSpec c tm ++ strftimeAux rest tm
  | c :: rest, tm => c :: strftimeAux rest tm

/-- `time.strftime` on a format string. -/
def strftime (fmt : String) (tm : Tm) : String :=
  ⟨strftimeAux fmt.data tm⟩

/-- The Synchronized Start Instant, as `_do_start` computes it (plugin.py
lines 256-258):
`time.strftime("%a, %d %b %Y %H:%M:%S +0000", time.gmtime(time.time() + args['scenario_delay']))`. -/
def computeStartInstant (now delay : Nat) : String :=
  strftime "%a, %d %b %Y %H:%M:%S +0000" (gmtime (now + delay))

/-- Observable behaviour of one external command invocation
(`subprocess.run`): exit status 0, a non-zero exit status, or a raised
Python exception (e.g. the executable could not be spawned).  With
`check=True` a non-zero exit status is converted into a raised
`CalledProcessError`; without it, the status is returned and ignored
unless the caller inspects it (the plugin never does). -/
inductive RunResult
  | ok
  | nonzeroExit
  | raiseExc
  deriving Repr, DecidableEq

/-- Oracle fixing the behaviour of every external operation one phase
invocation may perform, in the order the plugin invokes them. -/
structure ExtEnv where
  /-- `docker compose -f host/docker-compose.yml up -d` (check=True). -/
  upResult : RunResult
  /-- `sudo host/control prestart <cwd> <env> <instant>` (no check). -/
  prestartResult : RunResult
  /-- `sudo host/bridge start` (no check). -/
  bridgeResult : RunResult
  /-- `sudo sysctl kernel.sched_rt_runtime_us=-1` (no check). -/
  sysctlRelaxResult : RunResult
  /-- `sudo host/control start <cwd> <env> <instant>` (no check). -/
  hostStartResult : RunResult
  /-- Asynchronous result of the fire-and-forget `docker exec` launched by
  `subprocess.Popen` for a given node and init script name.  The child's
  output (success or failure) goes to the per-node log file; the plugin
  never inspects it. -/
  launchOk : String → String → Bool
  /-- `docker compose -f host/docker-compose.yml down` (check=True). -/
  downResult : RunResult
  /-- `sudo host/control stop <cwd> <env>` (no check). -/
  hostStopResult : RunResult
  /-- `sudo sysctl kernel.sched_rt_runtime_us=950000` (no check). -/
  sysctlRestoreResult : RunResult
  /-- `build_configuration(...)` from `letce2.engine.build`. -/
  buildResult : RunResult
  /-- `clean_configuration(...)` from `letce2.engine.build`. -/
  cleanResult : RunResult

/-- The filesystem state the plugin reads and writes. -/
structure FS where
  /-- Does the file at the configured lock path exist? -/
  lockExists : Bool
  /-- Does `host/docker-compose.yml` exist? -/
  composeExists : Bool
  /-- Does the `persist` directory exist? -/
  persistTreeExists : Bool
  /-- The nodes that currently have a `persist/<node>` workspace. -/
  persistNodes : List String
  deriving Repr, DecidableEq

/-- One side-effecting operation performed by a phase, in the order
performed.  Pure prints and the in-memory timestamp computation are not
events. -/
inductive Event
  /-- `Path(f'persist/{node}/var/{run,log,tmp}').mkdir(parents=True, exist_ok=True)`. -/
  | mkWorkspace (node : String)
  /-- `docker compose -f <file> up -d`. -/
  | composeUp (file : String)
  /-- `Path(lock_file).touch()` (with parent mkdir). -/
  | lockCreate (path : String)
  /-- `sudo host/control prestart <cwd> <envFile> <instant>`. -/
  | hostPrestart (cwd envFile instant : String)
  /-- `sudo host/bridge start`. -/
  | bridgeStart
  /-- `sudo sysctl <setting>`. -/
  | sysctlSet (setting : String)
  /-- `sudo host/control start <cwd> <envFile> <instant>`. -/
  | hostStart (cwd envFile instant : String)
  /-- `subprocess.Popen(['docker','exec',container,'bash','-c', f"/experiment/{node}/{script} /experiment {node} '' '{instant}'"], stdout=open(logPath,'w'), stderr=STDOUT)`;
  `asyncOk` records the eventual outcome of the detached child, observable
  only in the log file. -/
  | nodeLaunch (container node script instant logPath : String) (asyncOk : Bool)
  /-- `docker compose -f <file> down`. -/
  | composeDown (file : String)
  /-- `Path(lock_file).unlink()`. -/
  | lockRemove (path : String)
  /-- `sudo host/control stop <cwd> <envFile>`. -/
  | hostStop (cwd envFile : String)
  /-- `sudo rm -rf <path>`. -/
  | rmTree (path : String)
  /-- `nodes_to_manifest(nodes_exclude, manifest)`. -/
  | manifestRecord (nodes : List String)
  /-- `build_configuration(...)`. -/
  | buildConfig
  /-- `clean_configuration(...)`. -/
  | cleanConfig
  deriving Repr, DecidableEq

/-- How the Python process leaves the phase: `sys.exit(code)` / an uncaught
exception (non-zero process exit), or a normal return (process exit 0). -/
inductive Outcome
  | exited (code : Nat)
  | returned
  deriving Repr, DecidableEq

/-- Result of running one phase: the process outcome, the ordered trace of
side-effecting operations, and the final filesystem state. -/
structure PhaseResult where
  outcome : Outcome
  trace : List Event
  fs : FS
  deriving Repr, DecidableEq

/-- The parsed command-line arguments a phase receives (`args` dict).
Defaults per `Plugin.__init__`: `lock_file = '/var/run/lock/letce.lock'`,
`force = False`, `environment = ''`, `compose_file = 'docker-compose.yml'`,
`scenario_delay = 40`. -/
structure Args where
  lockFile : String
  force : Bool
  environment : String
  composeFile : String
  scenarioDelay : Nat
  deriving Repr, DecidableEq

/-- Fixed path used by `_do_start`/`_do_stop` for the group definition:
`compose_file = Path("host/docker-compose.yml")` (plugin.py lines 224, 320).
Note the `--compose-file` option value (`args.composeFile`) is never read. -/
def composePath : String := "host/docker-compose.yml"

/-- `_do_build` (plugin.py lines 183-203). -/
def doBuild (args : Args) (fs : FS) (env : ExtEnv) : PhaseResult :=
  if fs.lockExists && !args.force then
    { outcome := .exited 1, trace := [], fs := fs }
  else
    -- `build_configuration` runs outside any try/except: an exception
    -- propagates and terminates the process with a non-zero status.
    if env.buildResult = .raiseExc then
      { outcome := .exited 1, trace := [.buildConfig], fs := fs }
    else
      { outcome := .returned, trace := [.buildConfig], fs := fs }

/-- Workspace creation of `_do_start` (plugin.py lines 216-219): for each
node, create `persist/<node>/var/{run,log,tmp}` with `exist_ok=True`. -/
def addWorkspaces (nodes : List String) (fs : FS) : FS :=
  { fs with
    persistTreeExists := fs.persistTreeExists || !nodes.isEmpty
    persistNodes := nodes.filter (· ∉ fs.persistNodes) ++ fs.persistNodes }

/-- The container name and per-role log path of the first (network/emane)
launch of `_do_start`'s fan-out loop, and its command's positional data
(plugin.py lines 293-303). -/
def emaneLaunch (node instant : String) (ok : Bool) : Event :=
  .nodeLaunch ("letce2-" ++ node ++ "-emane") node "init" instant
    ("./persist/" ++ node ++ "/var/log/init.log") ok

/-- The second (business-workload) launch of the fan-out loop
(plugin.py lines 305-313). -/
def bizLaunch (node instant : String) (ok : Bool) : Event :=
  .nodeLaunch ("letce2-" ++ node ++ "-biz") node "biz-init" instant
    ("./persist/" ++ node ++ "/var/log/biz_init.log") ok

/-- The fan-out loop of `_do_start` (plugin.py lines 289-313): skip the
node named `host`; for every other node launch the two detached
initializers.  `Popen` does not wait, so the loop's control flow does not
depend on any launch's outcome. -/
def fanOutEvents (nodes : List String) (instant : String)
    (launchOk : String → String → Bool) : List Event :=
  nodes.flatMap fun node =>
    if node = "host" then []
    else
      [emaneLaunch node instant (launchOk node "init"),
       bizLaunch node instant (launchOk node "biz-init")]

/-- `_do_start` (plugin.py lines 206-313).  `now` is `time.time()` and
`cwd` is `os.getcwd()`. -/
def doStart (nodes : List String) (args : Args) (fs : FS) (env : ExtEnv)
    (now : Nat) (cwd : String) : PhaseResult :=
  -- lock check (lines 211-214)
  if fs.lockExists && !args.force then
    { outcome := .exited 1, trace := [], fs := fs }
  else
    -- per-node workspace creation (lines 216-219)
    let fs₁ := addWorkspaces nodes fs
    let evs₁ := nodes.map Event.mkWorkspace
    -- group definition existence check (lines 224-227)
    if !fs₁.composeExists then
      { outcome := .exited 1, trace := evs₁, fs := fs₁ }
    else
      -- `docker compose up -d` with check=True (lines 229-254): a non-zero
      -- exit raises CalledProcessError; either exception path exits 1
      -- before the lock file is touched.
      let evs₂ := evs₁ ++ [.composeUp composePath]
      if env.upResult ≠ .ok then
        { outcome := .exited 1, trace := evs₂, fs := fs₁ }
      else
        -- lock creation (lines 241-242), only after `up` succeeded
        let fs₂ := { fs₁ with lockExists := true }
        let evs₃ := evs₂ ++ [.lockCreate args.lockFile]
        -- Synchronized Start Instant (lines 256-258), computed once
        let instant := computeStartInstant now args.scenarioDelay
        -- host sub-steps (lines 261-286): four subprocess.run calls WITHOUT
        -- check=True inside one try/except.  A non-zero exit status is
        -- silently ignored; only a raised exception reaches the except
        -- clause, which exits 1.
        let evs₄ := evs₃ ++ [.hostPrestart cwd args.environment instant]
        if env.prestartResult = .raiseExc then
          { outcome := .exited 1, trace := evs₄, fs := fs₂ }
        else
          let evs₅ := evs₄ ++ [.bridgeStart]
          if env.bridgeResult = .raiseExc then
            { outcome := .exited 1, trace := evs₅, fs := fs₂ }
          else
            let evs₆ := evs₅ ++ [.sysctlSet "kernel.sched_rt_runtime_us=-1"]
            if env.sysctlRelaxResult = .raiseExc then
              { outcome := .exited 1, trace := evs₆, fs := fs₂ }
            else
              let evs₇ := evs₆ ++ [.hostStart cwd args.environment instant]
              if env.hostStartResult = .raiseExc then
                { outcome := .exited 1, trace := evs₇, fs := fs₂ }
              else
                -- fan-out (lines 288-313), then normal return
                { outcome := .returned
                  trace := evs₇ ++ fanOutEvents nodes instant env.launchOk
                  fs := fs₂ }

/-- The tail of `_do_stop` after the `down` try/except (plugin.py lines
353-370): `sudo host/control stop` inside a try/except that exits 1 on a
raised exception (non-zero exit ignored, no check=True), then
`sudo sysctl kernel.sched_rt_runtime_us=950000` outside any try/except
(a raised exception there is uncaught and terminates with non-zero
status). -/
def stopTail (args : Args) (fs : FS) (env : ExtEnv) (cwd : String)
    (evs : List Event) : PhaseResult :=
  let evs₁ := evs ++ [.hostStop cwd args.environment]
  if env.hostStopResult = .raiseExc then
    { outcome := .exited 1, trace := evs₁, fs := fs }
  else
    let evs₂ := evs₁ ++ [.sysctlSet "kernel.sched_rt_runtime_us=950000"]
    if env.sysctlRestoreResult = .raiseExc then
      { outcome := .exited 1, trace := evs₂, fs := fs }
    else
      { outcome := .returned, trace := evs₂, fs := fs }

/-- `_do_stop` (plugin.py lines 316-370). -/
def doStop (args : Args) (fs : FS) (env : ExtEnv) (cwd : String) : PhaseResult :=
  -- compose file existence check (lines 322-325): warn, and exit 1 only
  -- when not forced
  if !fs.composeExists && !args.force then
    { outcome := .exited 1, trace := [], fs := fs }
  else
    -- `docker compose down` with check=True (lines 327-351)
    let evs₁ := [Event.composeDown composePath]
    match env.downResult with
    | .ok =>
      -- lock removal (lines 340-341) happens inside the try block, right
      -- after a successful `down` and BEFORE `host/control stop`
      if fs.lockExists then
        stopTail args { fs with lockExists := false } env cwd
          (evs₁ ++ [.lockRemove args.lockFile])
      else
        stopTail args fs env cwd evs₁
    | .nonzeroExit =>
      -- CalledProcessError branch (lines 343-348): fatal unless forced;
      -- when forced, execution continues but the lock-removal statement
      -- was skipped by the exception
      if !args.force then
        { outcome := .exited 1, trace := evs₁, fs := fs }
      else
        stopTail args fs env cwd evs₁
    | .raiseExc =>
      -- generic except branch (lines 349-351): exits 1 regardless of force
      { outcome := .exited 1, trace := evs₁, fs := fs }

/-- The per-node removal loop of `_do_clean` (plugin.py lines 389-394):
for each included node whose workspace exists, `sudo rm -rf persist/<node>`. -/
def cleanNodesLoop (ninc : List String) (acc : List Event) (fs : FS) :
    List Event × FS :=
  match ninc with
  | [] => (acc, fs)
  | node :: rest =>
    if node ∈ fs.persistNodes then
      cleanNodesLoop rest (acc ++ [.rmTree ("persist/" ++ node)])
        { fs with persistNodes := fs.persistNodes.filter (· ≠ node) }
    else
      cleanNodesLoop rest acc fs

/-- `_do_clean` (plugin.py lines 372-404). -/
def doClean (ninc nexc : List String) (args : Args) (fs : FS) (env : ExtEnv) :
    PhaseResult :=
  -- lock check (lines 377-380)
  if fs.lockExists && !args.force then
    { outcome := .exited 1, trace := [], fs := fs }
  else
    let step : List Event × FS :=
      if nexc.isEmpty then
        -- no exclusion filter: `sudo rm -rf persist` if it exists (382-387)
        if fs.persistTreeExists then
          ([Event.rmTree "persist"], { fs with persistTreeExists := false, persistNodes := [] })
        else
          ([], fs)
      else
        -- partial clean (388-396): remove included workspaces, then record
        -- the excluded set into the manifest
        ((cleanNodesLoop ninc [] fs).1 ++ [Event.manifestRecord nexc],
          (cleanNodesLoop ninc [] fs).2)
    -- `clean_configuration` in a try/except that exits 1 on exception
    -- (lines 399-404)
    let evs₂ := step.1 ++ [Event.cleanConfig]
    if env.cleanResult = .raiseExc then
      { outcome := .exited 1, trace := evs₂, fs := step.2 }
    else
      { outcome := .returned, trace := evs₂, fs := step.2 }

/-- Spec-side rendering of the Synchronized Start Instant, written from the
spec's description: "now + delaySeconds" broken down as UTC calendar fields
and rendered as weekday-abbreviation, comma, zero-padded day, month
abbreviation, full year, zero-padded `HH:MM:SS`, and an explicit `+0000`
timezone — the shape of `"Wed, 02 Oct 2024 13:45:00 +0000"`.  Compared
against `computeStartInstant` (the source's `strftime` call) by refinement. -/
def specStartInstant (now delay : Nat) : String :=
  let tm := gmtime (now + delay)
  ⟨wdayAbbrev tm.wday ++ [',', ' '] ++ pad2 tm.mday ++ [' '] ++
    monAbbrev tm.mon ++ [' '] ++ Nat.toDigits 10 tm.year ++ [' '] ++
    pad2 tm.hour ++ [':'] ++ pad2 tm.min ++ [':'] ++ pad2 tm.sec ++
    [' ', '+', '0', '0', '0', '0']⟩

/-- The Synchronized Start Instant argument an event received, if any:
`hostPrestart` and `hostStart` receive it as a positional command argument,
each `nodeLaunch` embeds it in the `docker exec` command string. -/
def instantArg : Event → Option String
  | .hostPrestart _ _ s => some s
  | .hostStart _ _ s => some s
  | .nodeLaunch _ _ _ s _ _ => some s
  | _ => none

/-- Sample argument record with the parser's default values. -/
def wArgs : Args :=
  { lockFile := "/var/run/lock/letce.lock"
    force := false
    environment := ""
    composeFile := "docker-compose.yml"
    scenarioDelay := 40 }

/-- Sample environment in which every external operation succeeds. -/
def wEnvOk : ExtEnv :=
  { upResult := .ok
    prestartResult := .ok
    bridgeResult := .ok
    sysctlRelaxResult := .ok
    hostStartResult := .ok
    launchOk := fun _ _ => true
    downResult := .ok
    hostStopResult := .ok
    sysctlRestoreResult := .ok
    buildResult := .ok
    cleanResult := .ok }

/-- Sample filesystem: no lock held, group definition present, no persisted
workspaces yet. -/
def wFS : FS :=
  { lockExists := false
    composeExists := true
    persistTreeExists := false
    persistNodes := [] }

/-! ## Helper lemmas -/

/-- Validation of the `gmtime`/`strftime` embedding at the Unix epoch and
around a leap day, a year boundary, and the spec's example instant. -/
theorem computeStartInstant_validation :
    computeStartInstant 0 0 = "Thu, 01 Jan 1970 00:00:00 +0000" ∧
    computeStartInstant 1727876660 40 = "Wed, 02 Oct 2024 13:45:00 +0000" ∧
    computeStartInstant 1582977600 0 = "Sat, 29 Feb 2020 12:00:00 +0000" ∧
    computeStartInstant 946684799 0 = "Fri, 31 Dec 1999 23:59:59 +0000" ∧
    computeStartInstant 2147483647 0 = "Tue, 19 Jan 2038 03:14:07 +0000" := by
  decide

theorem strftimeAux_rfc2822 (tm : Tm) :
    strftimeAux "%a, %d %b %Y %H:%M:%S +0000".data tm =
      wdayAbbrev tm.wday ++ [',', ' '] ++ pad2 tm.mday ++ [' '] ++
        monAbbrev tm.mon ++ [' '] ++ Nat.toDigits 10 tm.year ++ [' '] ++
        pad2 tm.hour ++ [':'] ++ pad2 tm.min ++ [':'] ++ pad2 tm.sec ++
        [' ', '+', '0', '0', '0', '0'] := by
  show strftimeAux ['%', 'a', ',', ' ', '%', 'd', ' ', '%', 'b', ' ', '%', 'Y',
    ' ', '%', 'H', ':', '%', 'M', ':', '%', 'S', ' ', '+', '0', '0', '0', '0'] tm = _
  simp [strftimeAux, fmtSpec]

theorem doStart_success_eq
    (nodes : List String) (args : Args) (fs : FS) (env : ExtEnv)
    (now : Nat) (cwd : String)
    (hlock : fs.lockExists = false ∨ args.force = true)
    (hcf : fs.composeExists = true)
    (hup : env.upResult = .ok)
    (h1 : env.prestartResult ≠ .raiseExc)
    (h2 : env.bridgeResult ≠ .raiseExc)
    (h3 : env.sysctlRelaxResult ≠ .raiseExc)
    (h4 : env.hostStartResult ≠ .raiseExc) :
    doStart nodes args fs env now cwd =
      { outcome := .returned
        trace := nodes.map Event.mkWorkspace ++
          [.composeUp composePath, .lockCreate args.lockFile,
           .hostPrestart cwd args.environment (computeStartInstant now args.scenarioDelay),
           .bridgeStart, .sysctlSet "kernel.sched_rt_runtime_us=-1",
           .hostStart cwd args.environment (computeStartInstant now args.scenarioDelay)] ++
          fanOutEvents nodes (computeStartInstant now args.scenarioDelay) env.launchOk
        fs := { addWorkspaces nodes fs with lockExists := true } } := by
  rcases hlock with h | h <;>
    simp [doStart, addWorkspaces, h, hcf, hup, h1, h2, h3, h4]

theorem mem_fanOutEvents (nodes : List String) (s : String)
    (f : String → String → Bool) (n : String)
    (hn : n ∈ nodes) (hne : n ≠ "host") :
    emaneLaunch n s (f n "init") ∈ fanOutEvents nodes s f ∧
    bizLaunch n s (f n "biz-init") ∈ fanOutEvents nodes s f := by
  constructor <;>
    · simp only [fanOutEvents, List.mem_flatMap]
      exact ⟨n, hn, by simp [hne]⟩

theorem fanOutEvents_shape (nodes : List String) (s : String)
    (f : String → String → Bool) (e : Event)
    (he : e ∈ fanOutEvents nodes s f) :
    ∃ n, n ∈ nodes ∧ n ≠ "host" ∧
      (e = emaneLaunch n s (f n "init") ∨ e = bizLaunch n s (f n "biz-init")) := by
  simp only [fanOutEvents, List.mem_flatMap] at he
  obtain ⟨n, hn, hmem⟩ := he
  by_cases hh : n = "host"
  · simp [hh] at hmem
  · refine ⟨n, hn, hh, ?_⟩
    simpa [hh] using hmem

/-! ## Claim theorems -/

/-- C1: for every invocation of build, start, or clean, if the Lock
Artifact exists at the configured lock-file path and force is false, the
phase exits with non-zero status before performing any side-effecting
operation: the trace is empty and the filesystem is unchanged. -/
theorem lockfile_blocks_build_start_clean
    (nodes ninc nexc : List String) (args : Args) (fs : FS) (env : ExtEnv)
    (now : Nat) (cwd : String)
    (hlock : fs.lockExists = true) (hforce : args.force = false) :
    doBuild args fs env = ⟨.exited 1, [], fs⟩ ∧
    doStart nodes args fs env now cwd = ⟨.exited 1, [], fs⟩ ∧
    doClean ninc nexc args fs env = ⟨.exited 1, [], fs⟩ := by
  refine ⟨?_, ?_, ?_⟩ <;> simp [doBuild, doStart, doClean, hlock, hforce]

theorem lockfile_blocks_build_start_clean_witness :
    ({ wFS with lockExists := true } : FS).lockExists = true ∧
    wArgs.force = false ∧
    (doBuild wArgs { wFS with lockExists := true } wEnvOk =
        ⟨.exited 1, [], { wFS with lockExists := true }⟩ ∧
      doStart ["n1"] wArgs { wFS with lockExists := true } wEnvOk 0 "/exp" =
        ⟨.exited 1, [], { wFS with lockExists := true }⟩ ∧
      doClean ["n1"] [] wArgs { wFS with lockExists := true } wEnvOk =
        ⟨.exited 1, [], { wFS with lockExists := true }⟩) :=
  ⟨rfl, rfl,
    lockfile_blocks_build_start_clean ["n1"] ["n1"] [] wArgs
      { wFS with lockExists := true } wEnvOk 0 "/exp" (by decide) (by decide)⟩

/-- C2: the Lock Artifact is created only after the container bring-up
succeeded.  If the lock did not exist before and either the group
definition artifact is missing or `docker compose up` fails (non-zero exit
or exception), start exits with non-zero status and the lock still does
not exist. -/
theorem start_lock_created_only_after_up_succeeds
    (nodes : List String) (args : Args) (fs : FS) (env : ExtEnv)
    (now : Nat) (cwd : String)
    (hlock : fs.lockExists = false)
    (hfail : fs.composeExists = false ∨ env.upResult ≠ .ok) :
    (doStart nodes args fs env now cwd).outcome = .exited 1 ∧
    (doStart nodes args fs env now cwd).fs.lockExists = false := by
  by_cases hc : fs.composeExists = true
  · rcases hfail with h | h
    · simp [hc] at h
    · simp [doStart, addWorkspaces, hlock, hc, h]
  · simp [doStart, addWorkspaces, hlock, eq_false_of_ne_true hc]

theorem start_lock_created_only_after_up_succeeds_witness :
    wFS.lockExists = false ∧
    (wFS.composeExists = false ∨
      ({ wEnvOk with upResult := .nonzeroExit } : ExtEnv).upResult ≠ .ok) ∧
    (doStart ["n1"] wArgs wFS { wEnvOk with upResult := .nonzeroExit } 0 "/exp").outcome =
      .exited 1 ∧
    (doStart ["n1"] wArgs wFS { wEnvOk with upResult := .nonzeroExit } 0 "/exp").fs.lockExists =
      false := by
  refine ⟨rfl, Or.inr (by decide), ?_⟩
  exact start_lock_created_only_after_up_succeeds ["n1"] wArgs wFS
    { wEnvOk with upResult := .nonzeroExit } 0 "/exp" (by decide) (Or.inr (by decide))

/-- C6: the Synchronized Start Instant is the current time plus the
scenario delay in seconds, rendered in the fixed RFC-2822-style UTC format
with an explicit `+0000` timezone: the `strftime` call of the source
refines the spec-side rendering `specStartInstant` for all times and
delays, and reproduces the spec's example string at a concrete instant. -/
theorem start_instant_rfc2822_format :
    (∀ now delay : Nat, computeStartInstant now delay = specStartInstant now delay) ∧
    computeStartInstant 1727876660 40 = "Wed, 02 Oct 2024 13:45:00 +0000" :=
  ⟨fun now delay => congrArg String.mk (strftimeAux_rfc2822 (gmtime (now + delay))),
    by decide⟩

/-- C10: the `--compose-file` option value has no effect on start or stop:
replacing it by any other value yields an identical phase result, and the
group definition path actually used is the fixed string
`host/docker-compose.yml`. -/
theorem compose_file_option_no_effect
    (nodes : List String) (args : Args) (x : String) (fs : FS) (env : ExtEnv)
    (now : Nat) (cwd : String) :
    doStart nodes { args with composeFile := x } fs env now cwd =
      doStart nodes args fs env now cwd ∧
    doStop { args with composeFile := x } fs env cwd = doStop args fs env cwd ∧
    composePath = "host/docker-compose.yml" :=
  ⟨rfl, rfl, rfl⟩

/-- C5: within one start invocation exactly one Synchronized Start Instant
is computed — `computeStartInstant now scenarioDelay` — and that identical
string is the instant argument of the host pre-start operation, the host
start operation, and both initializer launches of every non-skipped node;
no event of the run carries any other instant. -/
theorem start_single_instant_consistency
    (nodes : List String) (args : Args) (fs : FS) (env : ExtEnv)
    (now : Nat) (cwd : String)
    (hlock : fs.lockExists = false ∨ args.force = true)
    (hcf : fs.composeExists = true)
    (hup : env.upResult = .ok)
    (h1 : env.prestartResult ≠ .raiseExc)
    (h2 : env.bridgeResult ≠ .raiseExc)
    (h3 : env.sysctlRelaxResult ≠ .raiseExc)
    (h4 : env.hostStartResult ≠ .raiseExc) :
    (∀ e ∈ (doStart nodes args fs env now cwd).trace,
      instantArg e = none ∨
      instantArg e = some (computeStartInstant now args.scenarioDelay)) ∧
    Event.hostPrestart cwd args.environment (computeStartInstant now args.scenarioDelay) ∈
      (doStart nodes args fs env now cwd).trace ∧
    Event.hostStart cwd args.environment (computeStartInstant now args.scenarioDelay) ∈
      (doStart nodes args fs env now cwd).trace ∧
    ∀ n ∈ nodes, n ≠ "host" →
      emaneLaunch n (computeStartInstant now args.scenarioDelay) (env.launchOk n "init") ∈
        (doStart nodes args fs env now cwd).trace ∧
      bizLaunch n (computeStartInstant now args.scenarioDelay) (env.launchOk n "biz-init") ∈
        (doStart nodes args fs env now cwd).trace := by
  rw [doStart_success_eq nodes args fs env now cwd hlock hcf hup h1 h2 h3 h4]
  refine ⟨?_, ?_, ?_, ?_⟩
  · intro e he
    simp only [List.mem_append, List.mem_map, List.mem_cons, List.mem_singleton,
      List.not_mem_nil, or_false] at he
    rcases he with (⟨n, _, rfl⟩ | h) | h
    · exact Or.inl rfl
    · rcases h with rfl | rfl | rfl | rfl | rfl | rfl <;> simp [instantArg]
    · obtain ⟨n, _, _, h | h⟩ := fanOutEvents_shape _ _ _ _ h <;>
        subst h <;> simp [instantArg, emaneLaunch, bizLaunch]
  · simp
  · simp
  · intro n hn hne
    have h := mem_fanOutEvents nodes (computeStartInstant now args.scenarioDelay)
      env.launchOk n hn hne
    exact ⟨by simp [h.1], by simp [h.2]⟩

theorem start_single_instant_consistency_witness :
    (wFS.lockExists = false ∨ wArgs.force = true) ∧
    wFS.composeExists = true ∧
    wEnvOk.upResult = .ok ∧
    ((∀ e ∈ (doStart ["host", "n1"] wArgs wFS wEnvOk 1727876660 "/exp").trace,
        instantArg e = none ∨
        instantArg e = some (computeStartInstant 1727876660 wArgs.scenarioDelay)) ∧
      Event.hostPrestart "/exp" wArgs.environment
          (computeStartInstant 1727876660 wArgs.scenarioDelay) ∈
        (doStart ["host", "n1"] wArgs wFS wEnvOk 1727876660 "/exp").trace ∧
      Event.hostStart "/exp" wArgs.environment
          (computeStartInstant 1727876660 wArgs.scenarioDelay) ∈
        (doStart ["host", "n1"] wArgs wFS wEnvOk 1727876660 "/exp").trace ∧
      ∀ n ∈ ["host", "n1"], n ≠ "host" →
        emaneLaunch n (computeStartInstant 1727876660 wArgs.scenarioDelay)
            (wEnvOk.launchOk n "init") ∈
          (doStart ["host", "n1"] wArgs wFS wEnvOk 1727876660 "/exp").trace ∧
        bizLaunch n (computeStartInstant 1727876660 wArgs.scenarioDelay)
            (wEnvOk.launchOk n "biz-init") ∈
          (doStart ["host", "n1"] wArgs wFS wEnvOk 1727876660 "/exp").trace) := by
  refine ⟨Or.inl rfl, rfl, rfl, ?_⟩
  exact start_single_instant_consistency ["host", "n1"] wArgs wFS wEnvOk
    1727876660 "/exp" (Or.inl (by decide)) (by decide) (by decide)
    (by decide) (by decide) (by decide) (by decide)

/-- C9: during start's fan-out the node named `host` is skipped (no launch
event names it), every other node of the Node Set receives the two
non-blocking initializer launches with their per-role log files, and the
phase returns success whatever the asynchronous outcome of any launch is
(`launchOk` may be replaced arbitrarily without changing the outcome), so
one node's launch failure neither prevents the other nodes' launches nor
fails the start phase. -/
theorem fanout_skips_host_and_is_isolated
    (nodes : List String) (args : Args) (fs : FS) (env : ExtEnv)
    (now : Nat) (cwd : String)
    (hlock : fs.lockExists = false ∨ args.force = true)
    (hcf : fs.composeExists = true)
    (hup : env.upResult = .ok)
    (h1 : env.prestartResult ≠ .raiseExc)
    (h2 : env.bridgeResult ≠ .raiseExc)
    (h3 : env.sysctlRelaxResult ≠ .raiseExc)
    (h4 : env.hostStartResult ≠ .raiseExc) :
    (∀ f, (doStart nodes args fs { env with launchOk := f } now cwd).outcome = .returned) ∧
    (∀ e ∈ (doStart nodes args fs env now cwd).trace,
      ∀ c n sc ins lp ok, e = Event.nodeLaunch c n sc ins lp ok → n ≠ "host") ∧
    ∀ n ∈ nodes, n ≠ "host" →
      emaneLaunch n (computeStartInstant now args.scenarioDelay) (env.launchOk n "init") ∈
        (doStart nodes args fs env now cwd).trace ∧
      bizLaunch n (computeStartInstant now args.scenarioDelay) (env.launchOk n "biz-init") ∈
        (doStart nodes args fs env now cwd).trace := by
  refine ⟨?_, ?_, ?_⟩
  · intro f
    rw [doStart_success_eq nodes args fs { env with launchOk := f } now cwd
      hlock hcf hup h1 h2 h3 h4]
  · rw [doStart_success_eq nodes args fs env now cwd hlock hcf hup h1 h2 h3 h4]
    intro e he
    simp only [List.mem_append, List.mem_map, List.mem_cons, List.mem_singleton,
      List.not_mem_nil, or_false] at he
    rcases he with (⟨m, _, rfl⟩ | h) | h
    · intro c n sc ins lp ok h
      exact absurd h (by simp)
    · rcases h with rfl | rfl | rfl | rfl | rfl | rfl <;>
        · intro c n sc ins lp ok h
          exact absurd h (by simp)
    · obtain ⟨m, _, hm, h | h⟩ := fanOutEvents_shape _ _ _ _ h <;>
        subst h <;>
        · intro c n sc ins lp ok h
          simp only [emaneLaunch, bizLaunch, Event.nodeLaunch.injEq] at h
          exact h.2.1 ▸ hm
  · intro n hn hne
    rw [doStart_success_eq nodes args fs env now cwd hlock hcf hup h1 h2 h3 h4]
    have h := mem_fanOutEvents nodes (computeStartInstant now args.scenarioDelay)
      env.launchOk n hn hne
    exact ⟨by simp [h.1], by simp [h.2]⟩

theorem fanout_skips_host_and_is_isolated_witness :
    (wFS.lockExists = false ∨ wArgs.force = true) ∧
    wFS.composeExists = true ∧
    wEnvOk.upResult = .ok ∧
    ((∀ f, (doStart ["host", "a", "b"] wArgs wFS { wEnvOk with launchOk := f } 0 "/exp").outcome =
        .returned) ∧
      (∀ e ∈ (doStart ["host", "a", "b"] wArgs wFS wEnvOk 0 "/exp").trace,
        ∀ c n sc ins lp ok, e = Event.nodeLaunch c n sc ins lp ok → n ≠ "host") ∧
      ∀ n ∈ ["host", "a", "b"], n ≠ "host" →
        emaneLaunch n (computeStartInstant 0 wArgs.scenarioDelay) (wEnvOk.launchOk n "init") ∈
          (doStart ["host", "a", "b"] wArgs wFS wEnvOk 0 "/exp").trace ∧
        bizLaunch n (computeStartInstant 0 wArgs.scenarioDelay) (wEnvOk.launchOk n "biz-init") ∈
          (doStart ["host", "a", "b"] wArgs wFS wEnvOk 0 "/exp").trace) := by
  refine ⟨Or.inl rfl, rfl, rfl, ?_⟩
  exact fanout_skips_host_and_is_isolated ["host", "a", "b"] wArgs wFS wEnvOk 0 "/exp"
    (Or.inl (by decide)) (by decide) (by decide) (by decide) (by decide)
    (by decide) (by decide)

/-- C4 (divergence witness): a host-network sub-step that fails with a
non-zero exit status does NOT abort the start phase.  With
`host/control prestart` exiting non-zero, the later sub-steps (bridge
activation, scheduling relaxation, host start signal) and the node fan-out
all still run, and the phase returns success instead of exiting non-zero —
the four `subprocess.run` calls lack `check=True`, so the surrounding
try/except (whose handler prints a fatal error and exits 1, documenting the
abort-on-failure intent) never fires for a sub-step's non-zero exit. -/
theorem prestart_nonzero_exit_not_fatal :
    ({ wEnvOk with prestartResult := .nonzeroExit } : ExtEnv).prestartResult = .nonzeroExit ∧
    (doStart ["n1"] wArgs wFS { wEnvOk with prestartResult := .nonzeroExit } 100 "/exp").outcome =
      .returned ∧
    (doStart ["n1"] wArgs wFS { wEnvOk with prestartResult := .nonzeroExit } 100 "/exp").trace =
      [.mkWorkspace "n1", .composeUp "host/docker-compose.yml",
       .lockCreate "/var/run/lock/letce.lock",
       .hostPrestart "/exp" "" (computeStartInstant 100 40),
       .bridgeStart, .sysctlSet "kernel.sched_rt_runtime_us=-1",
       .hostStart "/exp" "" (computeStartInstant 100 40),
       emaneLaunch "n1" (computeStartInstant 100 40) true,
       bizLaunch "n1" (computeStartInstant 100 40) true] := by
  decide

/-- C3 is false as stated on the code: with `--force` set and the
container-down operation failing (non-zero exit), stop does attempt the
host-network release and the scheduling-constraint restoration, but it
does NOT remove the Lock Artifact — the `unlink` statement sits inside the
try block after the `down` call, so the raised `CalledProcessError` skips
it; the lock file still exists afterwards and no lock-removal operation
appears in the trace. -/
theorem forced_stop_down_failure_keeps_lock_cex :
    ({ wArgs with force := true } : Args).force = true ∧
    ({ wEnvOk with downResult := .nonzeroExit } : ExtEnv).downResult = .nonzeroExit ∧
    ({ wFS with lockExists := true } : FS).lockExists = true ∧
    Event.hostStop "/exp" "" ∈
      (doStop { wArgs with force := true } { wFS with lockExists := true }
        { wEnvOk with downResult := .nonzeroExit } "/exp").trace ∧
    Event.sysctlSet "kernel.sched_rt_runtime_us=950000" ∈
      (doStop { wArgs with force := true } { wFS with lockExists := true }
        { wEnvOk with downResult := .nonzeroExit } "/exp").trace ∧
    Event.lockRemove "/var/run/lock/letce.lock" ∉
      (doStop { wArgs with force := true } { wFS with lockExists := true }
        { wEnvOk with downResult := .nonzeroExit } "/exp").trace ∧
    (doStop { wArgs with force := true } { wFS with lockExists := true }
      { wEnvOk with downResult := .nonzeroExit } "/exp").fs.lockExists = true := by
  decide

/-- C3 amended: for every stop invocation with force set in which the
container-down operation fails with a non-zero exit status (and the
remaining external calls do not raise), stop still performs the
host-network release step and the scheduling-constraint restoration and
returns normally, but it does not remove the Lock Artifact: the filesystem
(lock included) is left unchanged and no lock-removal operation occurs. -/
theorem forced_stop_down_failure_best_effort
    (args : Args) (fs : FS) (env : ExtEnv) (cwd : String)
    (hforce : args.force = true)
    (hdown : env.downResult = .nonzeroExit)
    (h1 : env.hostStopResult ≠ .raiseExc)
    (h2 : env.sysctlRestoreResult ≠ .raiseExc) :
    doStop args fs env cwd =
      { outcome := .returned
        trace := [.composeDown composePath, .hostStop cwd args.environment,
                  .sysctlSet "kernel.sched_rt_runtime_us=950000"]
        fs := fs } := by
  simp [doStop, stopTail, hforce, hdown, h1, h2]

theorem forced_stop_down_failure_best_effort_witness :
    ({ wArgs with force := true } : Args).force = true ∧
    ({ wEnvOk with downResult := .nonzeroExit } : ExtEnv).downResult = .nonzeroExit ∧
    doStop { wArgs with force := true } { wFS with lockExists := true }
        { wEnvOk with downResult := .nonzeroExit } "/exp" =
      { outcome := .returned
        trace := [.composeDown composePath, .hostStop "/exp" "",
                  .sysctlSet "kernel.sched_rt_runtime_us=950000"]
        fs := { wFS with lockExists := true } } := by
  refine ⟨rfl, rfl, ?_⟩
  exact forced_stop_down_failure_best_effort { wArgs with force := true }
    { wFS with lockExists := true } { wEnvOk with downResult := .nonzeroExit }
    "/exp" (by decide) (by decide) (by decide) (by decide)

/-- C7 is false as stated on the code: in a fully successful stop the Lock
Artifact is removed immediately after the container-down step and BEFORE
the host-network release step, not after it — in the concrete trace the
lock-removal event already occurs among the first two events, where the
host-network release event does not. -/
theorem stop_lock_removed_before_release_cex :
    (doStop wArgs { wFS with lockExists := true } wEnvOk "/exp").outcome = .returned ∧
    (doStop wArgs { wFS with lockExists := true } wEnvOk "/exp").trace =
      [.composeDown "host/docker-compose.yml",
       .lockRemove "/var/run/lock/letce.lock",
       .hostStop "/exp" "",
       .sysctlSet "kernel.sched_rt_runtime_us=950000"] ∧
    Event.lockRemove "/var/run/lock/letce.lock" ∈
      ((doStop wArgs { wFS with lockExists := true } wEnvOk "/exp").trace.take 2) ∧
    Event.hostStop "/exp" "" ∉
      ((doStop wArgs { wFS with lockExists := true } wEnvOk "/exp").trace.take 2) ∧
    Event.hostStop "/exp" "" ∈
      (doStop wArgs { wFS with lockExists := true } wEnvOk "/exp").trace := by
  decide

/-- C7 amended: every successful stop invocation (group definition present,
lock held, container-down succeeds, no raised exception in the tail)
executes exactly: container-group down, then removal of the Lock Artifact,
then the host-network release step, then restoration of the real-time
scheduling constraint as the final cleanup step — the lock is removed
right after the down step succeeds and before the host-network release. -/
theorem stop_success_order
    (args : Args) (fs : FS) (env : ExtEnv) (cwd : String)
    (hcf : fs.composeExists = true)
    (hlock : fs.lockExists = true)
    (hdown : env.downResult = .ok)
    (h1 : env.hostStopResult ≠ .raiseExc)
    (h2 : env.sysctlRestoreResult ≠ .raiseExc) :
    doStop args fs env cwd =
      { outcome := .returned
        trace := [.composeDown composePath, .lockRemove args.lockFile,
                  .hostStop cwd args.environment,
                  .sysctlSet "kernel.sched_rt_runtime_us=950000"]
        fs := { fs with lockExists := false } } := by
  simp [doStop, stopTail, hcf, hlock, hdown, h1, h2]

theorem stop_success_order_witness :
    ({ wFS with lockExists := true } : FS).composeExists = true ∧
    ({ wFS with lockExists := true } : FS).lockExists = true ∧
    wEnvOk.downResult = .ok ∧
    doStop wArgs { wFS with lockExists := true } wEnvOk "/exp" =
      { outcome := .returned
        trace := [.composeDown composePath, .lockRemove "/var/run/lock/letce.lock",
                  .hostStop "/exp" "",
                  .sysctlSet "kernel.sched_rt_runtime_us=950000"]
        fs := wFS } := by
  refine ⟨rfl, rfl, rfl, ?_⟩
  have h := stop_success_order wArgs { wFS with lockExists := true } wEnvOk "/exp"
    (by decide) (by decide) (by decide) (by decide) (by decide)
  simpa using h

theorem filter_ne_filter (l : List String) (node : String) (rest : List String) :
    (l.filter (· ≠ node)).filter (· ∉ rest) = l.filter (· ∉ node :: rest) := by
  rw [List.filter_filter]
  apply List.filter_congr
  intro x _
  simp only [List.mem_cons, decide_not]
  cases hx : decide (x = node) <;>
    simp_all [Bool.and_comm]

theorem cleanNodesLoop_snd (ninc : List String) (acc : List Event) (fs : FS) :
    (cleanNodesLoop ninc acc fs).2 =
      { fs with persistNodes := fs.persistNodes.filter (· ∉ ninc) } := by
  induction ninc generalizing acc fs with
  | nil => simp [cleanNodesLoop]
  | cons node rest ih =>
    by_cases h : node ∈ fs.persistNodes
    · rw [cleanNodesLoop, if_pos h, ih]
      simp only [filter_ne_filter]
    · rw [cleanNodesLoop, if_neg h, ih]
      have : fs.persistNodes.filter (· ∉ rest) =
          fs.persistNodes.filter (· ∉ node :: rest) := by
        apply List.filter_congr
        intro x hx
        have hxn : x ≠ node := fun hh => h (hh ▸ hx)
        simp [List.mem_cons, hxn]
      rw [this]

/-- C8: for every clean invocation that passes the lock gate (lock absent
or forced), on a well-formed filesystem (no workspaces without the
`persist` tree): with an empty exclusion filter the entire persisted
workspace tree is removed; with a non-empty exclusion filter exactly the
included nodes' workspaces are removed (the surviving workspaces are those
of nodes outside the include list), every excluded node's workspace is
left unchanged, and the excluded node set is recorded back into the
manifest. -/
theorem clean_exclusion_filter_preserved
    (ninc nexc : List String) (args : Args) (fs : FS) (env : ExtEnv)
    (hlock : fs.lockExists = false ∨ args.force = true)
    (hwf : fs.persistTreeExists = false → fs.persistNodes = []) :
    (nexc = [] →
      (doClean ninc nexc args fs env).fs.persistNodes = [] ∧
      (doClean ninc nexc args fs env).fs.persistTreeExists = false) ∧
    (nexc ≠ [] →
      (doClean ninc nexc args fs env).fs.persistNodes =
        fs.persistNodes.filter (· ∉ ninc) ∧
      Event.manifestRecord nexc ∈ (doClean ninc nexc args fs env).trace ∧
      ∀ n ∈ nexc, n ∉ ninc →
        (n ∈ fs.persistNodes ↔ n ∈ (doClean ninc nexc args fs env).fs.persistNodes)) := by
  constructor
  · rintro rfl
    rcases hlock with h | h <;>
      by_cases ht : fs.persistTreeExists <;>
      by_cases hce : env.cleanResult = .raiseExc <;>
      simp_all [doClean]
  · intro hne
    have hni : nexc.isEmpty = false := by
      cases nexc with
      | nil => exact absurd rfl hne
      | cons a l => rfl
    rcases hlock with h | h <;>
      by_cases hce : env.cleanResult = .raiseExc <;>
      simp_all [doClean, cleanNodesLoop_snd, List.mem_filter]

theorem clean_exclusion_filter_preserved_witness :
    (({ wFS with persistTreeExists := true, persistNodes := ["a", "b", "c"] } : FS).lockExists =
        false ∨ wArgs.force = true) ∧
    ((["c"] : List String) = [] →
      (doClean ["a", "b"] ["c"] wArgs
        { wFS with persistTreeExists := true, persistNodes := ["a", "b", "c"] }
        wEnvOk).fs.persistNodes = [] ∧
      (doClean ["a", "b"] ["c"] wArgs
        { wFS with persistTreeExists := true, persistNodes := ["a", "b", "c"] }
        wEnvOk).fs.persistTreeExists = false) ∧
    ((["c"] : List String) ≠ [] →
      (doClean ["a", "b"] ["c"] wArgs
        { wFS with persistTreeExists := true, persistNodes := ["a", "b", "c"] }
        wEnvOk).fs.persistNodes =
        (["a", "b", "c"] : List String).filter (· ∉ (["a", "b"] : List String)) ∧
      Event.manifestRecord ["c"] ∈
        (doClean ["a", "b"] ["c"] wArgs
          { wFS with persistTreeExists := true, persistNodes := ["a", "b", "c"] }
          wEnvOk).trace ∧
      ∀ n ∈ (["c"] : List String), n ∉ (["a", "b"] : List String) →
        (n ∈ (["a", "b", "c"] : List String) ↔
          n ∈ (doClean ["a", "b"] ["c"] wArgs
            { wFS with persistTreeExists := true, persistNodes := ["a", "b", "c"] }
            wEnvOk).fs.persistNodes)) := by
  refine ⟨Or.inl rfl, ?_, ?_⟩
  · exact (clean_exclusion_filter_preserved ["a", "b"] ["c"] wArgs
      { wFS with persistTreeExists := true, persistNodes := ["a", "b", "c"] }
      wEnvOk (Or.inl (by decide)) (by decide)).1
  · exact (clean_exclusion_filter_preserved ["a", "b"] ["c"] wArgs
      { wFS with persistTreeExists := true, persistNodes := ["a", "b", "c"] }
      wEnvOk (Or.inl (by decide)) (by decide)).2

end Letce2Docker
